import Mathlib

/-!
Shallow embedding of `machina/apps/forum_moderation/views.py` from django-machina.

The file models the three moderation views (`TopicLockView`, `TopicDeleteView`,
`TopicMoveView`): the data they manipulate (topics, forums, statuses), the
side effects they perform (object saves, deletions, flash messages), the URLs
they redirect to, and the permission-check wiring. Side effects are made
explicit as an ordered list of `Event`s, and storage is modelled by a small
`Db` on which the events act.
-/

/-- A forum, identified by primary key and slug (the two fields the views read). -/
structure Forum where
  pk : Nat
  slug : String
deriving DecidableEq, Repr

/-- The topic status enumeration `Topic.STATUS_CHOICES`; the views reference
`topic_locked` and `topic_moved`, and `topic_unlocked` is the ordinary state. -/
inductive TopicStatus where
  | topic_unlocked
  | topic_locked
  | topic_moved
deriving DecidableEq, Repr

/-- A topic: primary key, slug, a reference to exactly one forum, and a status. -/
structure Topic where
  pk : Nat
  slug : String
  forum : Forum
  status : TopicStatus
deriving DecidableEq, Repr

/-- The acting user, opaque to this code except as an argument to the
permission handler. -/
structure User where
  pk : Nat
deriving DecidableEq, Repr

/-- The injected permission handler (`request.forum_permission_handler`),
exposing the three capability predicates the views call. -/
structure ForumPermissionHandler where
  can_close_topics : Forum → User → Bool
  can_delete_topics : Forum → User → Bool
  can_move_topics : Forum → User → Bool

/-- A resolved URL, as produced by `reverse`: either a topic page
(`forum-conversation:topic`, keyed by forum slug/pk and topic slug/pk) or a
forum page (`forum:forum`, keyed by forum slug/pk). -/
inductive Url where
  | topicPage (forum_slug : String) (forum_pk : Nat) (slug : String) (pk : Nat)
  | forumPage (slug : String) (pk : Nat)
deriving DecidableEq, Repr

/-- An observable side effect of a view: an ORM save of a topic or forum, an
ORM deletion of a topic, or a flash message via `messages.success`. -/
inductive Event where
  | savedTopic (t : Topic)
  | savedForum (f : Forum)
  | deletedTopic (t : Topic)
  | successMessage (msg : String)
deriving DecidableEq, Repr

/-- Whether an event writes to persistent storage. -/
def Event.isPersist : Event → Bool
  | Event.savedTopic _ => true
  | Event.savedForum _ => true
  | Event.deletedTopic _ => true
  | Event.successMessage _ => false

/-- Storage: the topics and forums currently persisted, each keyed by `pk`. -/
structure Db where
  topics : List Topic
  forums : List Forum
deriving DecidableEq, Repr

/-- `get_object`: fetch the topic with the given primary key, if present. -/
def Db.get_object (db : Db) (pk : Nat) : Option Topic :=
  db.topics.find? (fun t => t.pk == pk)

/-- Interpretation of one event on storage: saves upsert by primary key,
deletion removes by primary key, flash messages do not touch storage. -/
def Db.applyEvent (db : Db) : Event → Db
  | Event.savedTopic t =>
      { db with topics := t :: db.topics.filter (fun x => x.pk != t.pk) }
  | Event.savedForum f =>
      { db with forums := f :: db.forums.filter (fun x => x.pk != f.pk) }
  | Event.deletedTopic t =>
      { db with topics := db.topics.filter (fun x => x.pk != t.pk) }
  | Event.successMessage _ => db

/-- Interpretation of an event list, in order. -/
def Db.applyEvents (db : Db) (events : List Event) : Db :=
  events.foldl Db.applyEvent db

/-! ## TopicLockView -/

def TopicLockView.success_message : String :=
  "This topic has been locked successfully."

/-- `TopicLockView.get_success_url`: emits the success flash message and
returns the topic page URL built from the object current field values. -/
def TopicLockView.get_success_url (object : Topic) : Url × List Event :=
  (Url.topicPage object.forum.slug object.forum.pk object.slug object.pk,
   [Event.successMessage TopicLockView.success_message])

/-- `TopicLockView.lock`: computes the success URL from the fetched object,
then sets `status` to `topic_locked`, saves the object and returns a redirect
to the success URL. Yields the updated topic, the redirect target and the
ordered side effects. -/
def TopicLockView.lock (object : Topic) : Topic × Url × List Event :=
  let p := TopicLockView.get_success_url object
  let object := { object with status := TopicStatus.topic_locked }
  (object, p.1, p.2 ++ [Event.savedTopic object])

/-- `TopicLockView.get_controlled_object`: the forum of the fetched topic. -/
def TopicLockView.get_controlled_object (object : Topic) : Forum :=
  object.forum

/-- `TopicLockView.perform_permissions_check`: delegates to
`forum_permission_handler.can_close_topics(obj, user)`; `perms` is ignored. -/
def TopicLockView.perform_permissions_check (handler : ForumPermissionHandler)
    (user : User) (obj : Forum) ( _perms : List String) : Bool :=
  handler.can_close_topics obj user

/-! ## TopicDeleteView -/

def TopicDeleteView.success_message : String :=
  "This topic has been deleted successfully."

/-- `TopicDeleteView.get_success_url`: emits the success flash message and
returns the forum page URL built from the object forum slug and pk. -/
def TopicDeleteView.get_success_url (object : Topic) : Url × List Event :=
  (Url.forumPage object.forum.slug object.forum.pk,
   [Event.successMessage TopicDeleteView.success_message])

/-- `TopicDeleteView.delete` body on the fetched object: computes the success
URL first, then deletes the object, then returns a redirect to that URL. -/
def TopicDeleteView.delete (object : Topic) : Url × List Event :=
  let p := TopicDeleteView.get_success_url object
  (p.1, p.2 ++ [Event.deletedTopic object])

/-- A whole delete request against storage: `get_object` fetches the topic by
primary key (404 → `none` when absent), then the `delete` body runs and its
effects are applied to storage. -/
def TopicDeleteView.run (db : Db) (pk : Nat) : Option (Url × List Event × Db) :=
  match db.get_object pk with
  | none => none
  | some object =>
      let p := TopicDeleteView.delete object
      some (p.1, p.2, db.applyEvents p.2)

/-- `TopicDeleteView.get_controlled_object`: the forum of the fetched topic. -/
def TopicDeleteView.get_controlled_object (object : Topic) : Forum :=
  object.forum

/-- `TopicDeleteView.perform_permissions_check`: delegates to
`forum_permission_handler.can_delete_topics(obj, user)`; `perms` is ignored. -/
def TopicDeleteView.perform_permissions_check (handler : ForumPermissionHandler)
    (user : User) (obj : Forum) ( _perms : List String) : Bool :=
  handler.can_delete_topics obj user

/-! ## TopicMoveView -/

/-- The cleaned data of a valid `TopicMoveForm` submission: the target forum
and the "lock topic" checkbox. -/
structure TopicMoveFormData where
  forum : Forum
  lock_topic : Bool
deriving DecidableEq, Repr

def TopicMoveView.success_message : String :=
  "This topic has been moved successfully."

/-- `TopicMoveView.get_success_url`: the topic page URL built from the object
current forum (after the move this is the target forum) and the topic slug/pk. -/
def TopicMoveView.get_success_url (object : Topic) : Url :=
  Url.topicPage object.forum.slug object.forum.pk object.slug object.pk

/-- `TopicMoveView.form_valid`: reassigns the topic forum to the form target
forum, sets the status to `topic_locked` when the lock flag is set and to
`topic_moved` otherwise, saves the topic and the old forum, emits the success
message, and redirects to the success URL computed from the updated object. -/
def TopicMoveView.form_valid (object : Topic) (form : TopicMoveFormData) :
    Topic × Url × List Event :=
  let topic := object
  let old_forum := topic.forum
  let new_forum := form.forum
  let topic := { topic with forum := new_forum }
  let topic :=
    if form.lock_topic then { topic with status := TopicStatus.topic_locked }
    else { topic with status := TopicStatus.topic_moved }
  (topic,
   TopicMoveView.get_success_url topic,
   [Event.savedTopic topic, Event.savedForum old_forum,
    Event.successMessage TopicMoveView.success_message])

/-- `TopicMoveView.get_controlled_object`: the forum of the fetched topic,
i.e. the forum the topic belongs to before the move. -/
def TopicMoveView.get_controlled_object (object : Topic) : Forum :=
  object.forum

/-- `TopicMoveView.perform_permissions_check`: delegates to
`forum_permission_handler.can_move_topics(obj, user)`; `perms` is ignored. -/
def TopicMoveView.perform_permissions_check (handler : ForumPermissionHandler)
    (user : User) (obj : Forum) ( _perms : List String) : Bool :=
  handler.can_move_topics obj user

/-! ## Permission gating -/

/-- Outcome of the permission gate: proceed with the action or take the denial
path. -/
inductive AccessDecision where
  | proceed
  | denied
deriving DecidableEq, Repr

/-- Modelled from the spec: `PermissionRequiredMixin` (imported from
`forum_permission.mixins`, whose code is not part of this source file) calls
the view `perform_permissions_check` with the acting user and the object
returned by `get_controlled_object`, and routes the request to a denial path
(an access-denied response) whenever that check returns `false`. -/
def PermissionRequiredMixin.gate (check : Bool) : AccessDecision :=
  if check then AccessDecision.proceed else AccessDecision.denied

/-! ## Helper lemmas -/

/-- Applying a `deletedTopic` event removes every topic with that primary key
from storage. -/
theorem Db.get_object_after_deletedTopic (db : Db) (pk : Nat) (t : Topic)
    (hpk : t.pk = pk) :
    (db.applyEvent (Event.deletedTopic t)).get_object pk = none := by
  rw [Db.get_object, List.find?_eq_none]
  intro x hx
  simp only [Db.applyEvent, List.mem_filter] at hx
  simp only [bne_iff_ne, ne_eq, hpk] at hx
  simp [hx.2]

/-- Running the delete-view event list on storage removes the deleted topic. -/
theorem Db.get_object_after_delete_events (db : Db) (pk : Nat) (t : Topic)
    (hpk : t.pk = pk) :
    (db.applyEvents (TopicDeleteView.delete t).2).get_object pk = none := by
  simpa [TopicDeleteView.delete, TopicDeleteView.get_success_url, Db.applyEvents] using
    Db.get_object_after_deletedTopic db pk t hpk

/-- A successful `get_object` implies the fetched topic carries the requested
primary key. -/
theorem Db.get_object_pk (db : Db) (pk : Nat) (t : Topic)
    (h : db.get_object pk = some t) : t.pk = pk := by
  have hp := List.find?_some h
  simpa using hp

/-! ## Concrete example objects used by witnesses -/

def exampleForum : Forum := ⟨1, "forum-a"⟩

def exampleTopic : Topic := ⟨5, "topic-5", exampleForum, TopicStatus.topic_unlocked⟩

def exampleDb : Db := ⟨[exampleTopic], [exampleForum]⟩

/-! ## Claims -/

/-- C1: for every topic and every valid move-form submission naming target
forum B and a lock flag, the move reassigns the topic's forum reference to B
and sets the status to `topic_locked` when the lock flag is set and to
`topic_moved` when it is not. -/
theorem C1_move_reassigns_forum_and_sets_status (t : Topic)
    (form : TopicMoveFormData) :
    (TopicMoveView.form_valid t form).1.forum = form.forum
    ∧ (TopicMoveView.form_valid t form).1.status =
        (if form.lock_topic then TopicStatus.topic_locked
         else TopicStatus.topic_moved) := by
  rcases form with ⟨nf, lt⟩
  cases lt <;> exact ⟨rfl, rfl⟩

/-- C2: the lock action sets the topic's status to `topic_locked`, saves the
topic, leaves the forum reference unchanged, and returns a redirect to the
topic page built from that forum's slug and pk and the topic's slug and pk. -/
theorem C2_lock_sets_status_saves_redirects (t : Topic) :
    (TopicLockView.lock t).1.status = TopicStatus.topic_locked
    ∧ (TopicLockView.lock t).1.forum = t.forum
    ∧ Event.savedTopic (TopicLockView.lock t).1 ∈ (TopicLockView.lock t).2.2
    ∧ (TopicLockView.lock t).2.1
        = Url.topicPage t.forum.slug t.forum.pk t.slug t.pk := by
  refine ⟨rfl, rfl, ?_, rfl⟩
  simp [TopicLockView.lock, TopicLockView.get_success_url]

/-- C3: the delete action removes the topic from storage, returns a redirect
to the page of the forum the topic belonged to at request time (built from the
forum's slug and pk), and emits a success notice. -/
theorem C3_delete_removes_and_redirects (db : Db) (pk : Nat) (t : Topic)
    (h : db.get_object pk = some t) :
    TopicDeleteView.run db pk
      = some ((TopicDeleteView.delete t).1, (TopicDeleteView.delete t).2,
          db.applyEvents (TopicDeleteView.delete t).2)
    ∧ (TopicDeleteView.delete t).1 = Url.forumPage t.forum.slug t.forum.pk
    ∧ Event.successMessage TopicDeleteView.success_message
        ∈ (TopicDeleteView.delete t).2
    ∧ (db.applyEvents (TopicDeleteView.delete t).2).get_object pk = none := by
  refine ⟨?_, rfl, ?_, ?_⟩
  · simp [TopicDeleteView.run, h]
  · simp [TopicDeleteView.delete, TopicDeleteView.get_success_url]
  · exact Db.get_object_after_delete_events db pk t (Db.get_object_pk db pk t h)

/-- Witness for C3 at a concrete database holding one topic. -/
theorem C3_delete_removes_and_redirects_witness :
    exampleDb.get_object 5 = some exampleTopic
    ∧ (TopicDeleteView.run exampleDb 5
        = some ((TopicDeleteView.delete exampleTopic).1,
            (TopicDeleteView.delete exampleTopic).2,
            exampleDb.applyEvents (TopicDeleteView.delete exampleTopic).2)
      ∧ (TopicDeleteView.delete exampleTopic).1
          = Url.forumPage exampleTopic.forum.slug exampleTopic.forum.pk
      ∧ Event.successMessage TopicDeleteView.success_message
          ∈ (TopicDeleteView.delete exampleTopic).2
      ∧ (exampleDb.applyEvents
            (TopicDeleteView.delete exampleTopic).2).get_object 5 = none) :=
  ⟨rfl, C3_delete_removes_and_redirects exampleDb 5 exampleTopic rfl⟩

/-- C4: each action delegates authorization to the injected permission
handler, calling the capability predicate matching the action with the topic's
controlling forum and the acting user, and takes the denial path exactly when
that predicate returns false; for move, the forum passed to the predicate is
the topic's forum before the move, while the move itself reassigns the topic
to the form's target forum. -/
theorem C4_permission_delegation (handler : ForumPermissionHandler)
    (user : User) (t : Topic) (form : TopicMoveFormData) (perms : List String) :
    (PermissionRequiredMixin.gate
        (TopicLockView.perform_permissions_check handler user
          (TopicLockView.get_controlled_object t) perms) = AccessDecision.denied
      ↔ handler.can_close_topics t.forum user = false)
    ∧ (PermissionRequiredMixin.gate
        (TopicDeleteView.perform_permissions_check handler user
          (TopicDeleteView.get_controlled_object t) perms) = AccessDecision.denied
      ↔ handler.can_delete_topics t.forum user = false)
    ∧ (PermissionRequiredMixin.gate
        (TopicMoveView.perform_permissions_check handler user
          (TopicMoveView.get_controlled_object t) perms) = AccessDecision.denied
      ↔ handler.can_move_topics t.forum user = false)
    ∧ TopicMoveView.get_controlled_object t = t.forum
    ∧ (TopicMoveView.form_valid t form).1.forum = form.forum := by
  refine ⟨?_, ?_, ?_, rfl, ?_⟩
  · cases hb : handler.can_close_topics t.forum user <;>
      simp [PermissionRequiredMixin.gate, TopicLockView.perform_permissions_check,
        TopicLockView.get_controlled_object, hb]
  · cases hb : handler.can_delete_topics t.forum user <;>
      simp [PermissionRequiredMixin.gate, TopicDeleteView.perform_permissions_check,
        TopicDeleteView.get_controlled_object, hb]
  · cases hb : handler.can_move_topics t.forum user <;>
      simp [PermissionRequiredMixin.gate, TopicMoveView.perform_permissions_check,
        TopicMoveView.get_controlled_object, hb]
  · rcases form with ⟨nf, lt⟩
    cases lt <;> rfl

/-- C5: a successful move persists exactly two objects, in this order: the
updated topic (new forum reference and new status) and the original forum the
topic belonged to before the move; no other persistence event is emitted. -/
theorem C5_move_persists_exactly_topic_and_old_forum (t : Topic)
    (form : TopicMoveFormData) :
    ((TopicMoveView.form_valid t form).2.2).filter Event.isPersist
      = [Event.savedTopic (TopicMoveView.form_valid t form).1,
         Event.savedForum t.forum] := by
  rcases form with ⟨nf, lt⟩
  cases lt <;> rfl

/-- C6: a successful move of a topic to target forum B redirects to the
topic's new location, the topic page built from B's slug and pk together with
the topic's slug and pk, and emits a success notice. -/
theorem C6_move_redirects_to_new_location (t : Topic)
    (form : TopicMoveFormData) :
    (TopicMoveView.form_valid t form).2.1
      = Url.topicPage form.forum.slug form.forum.pk t.slug t.pk
    ∧ Event.successMessage TopicMoveView.success_message
        ∈ (TopicMoveView.form_valid t form).2.2 := by
  rcases form with ⟨nf, lt⟩
  cases lt <;> exact ⟨rfl, by simp [TopicMoveView.form_valid]⟩

/-- C7: every topic references exactly one forum at any time (the `Topic`
type has a single, total `forum` field, so zero or two references are
unrepresentable): lock leaves that single reference untouched and move
replaces it with a single reference to the target forum. -/
theorem C7_exactly_one_forum_reference (t : Topic) (form : TopicMoveFormData) :
    (TopicLockView.lock t).1.forum = t.forum
    ∧ (TopicMoveView.form_valid t form).1.forum = form.forum := by
  rcases form with ⟨nf, lt⟩
  cases lt <;> exact ⟨rfl, rfl⟩

/-- C8: the move action overwrites the previous status unconditionally: for
every topic, including one already in status `topic_locked`, a move with the
lock flag unset sets the status to `topic_moved`. -/
theorem C8_move_with_flag_unset_unlocks (t : Topic) (nf : Forum) :
    (TopicMoveView.form_valid t ⟨nf, false⟩).1.status = TopicStatus.topic_moved
    ∧ (TopicMoveView.form_valid { t with status := TopicStatus.topic_locked }
        ⟨nf, false⟩).1.status = TopicStatus.topic_moved :=
  ⟨rfl, rfl⟩

/-- C9: the lock action is idempotent: applying lock to an already locked
result yields the same topic state and the same redirect target as one
application. -/
theorem C9_lock_idempotent (t : Topic) :
    (TopicLockView.lock (TopicLockView.lock t).1).1 = (TopicLockView.lock t).1
    ∧ (TopicLockView.lock (TopicLockView.lock t).1).2.1
        = (TopicLockView.lock t).2.1 :=
  ⟨rfl, rfl⟩

/-- C10: the delete action computes its success URL from the topic's forum
before the topic is removed from storage: the returned URL is exactly the one
`get_success_url` built from the fetched (pre-delete) object, it names the
forum the topic belonged to, and it remains a well-defined target even though
the topic is gone from storage after the delete events run. -/
theorem C10_delete_url_precomputed (db : Db) (pk : Nat) (t : Topic)
    (h : db.get_object pk = some t) :
    (TopicDeleteView.delete t).1 = (TopicDeleteView.get_success_url t).1
    ∧ (TopicDeleteView.get_success_url t).1
        = Url.forumPage t.forum.slug t.forum.pk
    ∧ (db.applyEvents (TopicDeleteView.delete t).2).get_object pk = none :=
  ⟨rfl, rfl, Db.get_object_after_delete_events db pk t (Db.get_object_pk db pk t h)⟩

/-- Witness for C10 at a concrete database holding one topic. -/
theorem C10_delete_url_precomputed_witness :
    exampleDb.get_object 5 = some exampleTopic
    ∧ ((TopicDeleteView.delete exampleTopic).1
        = (TopicDeleteView.get_success_url exampleTopic).1
      ∧ (TopicDeleteView.get_success_url exampleTopic).1
          = Url.forumPage exampleTopic.forum.slug exampleTopic.forum.pk
      ∧ (exampleDb.applyEvents
            (TopicDeleteView.delete exampleTopic).2).get_object 5 = none) :=
  ⟨rfl, C10_delete_url_precomputed exampleDb 5 exampleTopic rfl⟩
